import Mathlib

/-!
Verification development for the batch acquisition controller and content
scoring engine of the auto_etsy repository.

The Python source is shallowly embedded: pure computations become Lean
functions over ℚ (Python floats are modelled as exact rationals), dictionaries
become association lists with Python dict semantics (overwrite-by-key upsert,
insertion order preserved), and the external collaborators (Apify scraper,
OpenCV template matching, PIL decoding, Google Vision) appear as explicit
environment parameters: everything the repository computes itself is
translated from the source.

Sources embedded:
  src/utils/image_tracker.py                  (ImageTracker)
  src/phase1_acquisition/video_detector.py    (VideoThumbnailDetector)
  src/phase1_acquisition/enhanced_content_filter.py (EnhancedContentFilter)
  src/phase1_acquisition/batch_processor.py   (BatchProcessor)
-/

namespace AutoEtsy

/-! ## Generic helpers: substring search and Python-dict association lists -/

/-- Whether the second character list is a possible start of the first
(used to implement the Python `sub in s` substring operator). -/
def listStartsWith : List Char → List Char → Bool
  | _, [] => true
  | [], _ :: _ => false
  | a :: as, b :: bs => a == b && listStartsWith as bs

/-- Python substring containment test: returns true iff `sub` occurs
contiguously inside `s`. -/
def listContainsSub : List Char → List Char → Bool
  | [], sub => sub.isEmpty
  | c :: rest, sub => listStartsWith (c :: rest) sub || listContainsSub rest sub

/-- String version of the Python `sub in s` operator. -/
def containsSub (s sub : String) : Bool :=
  listContainsSub s.toList sub.toList

/-- Python `str.lower` restricted to per-character lowering. -/
def lowerStr (s : String) : String :=
  String.mk (s.toList.map Char.toLower)

/-- Python dict lookup `d[k]` / `d.get(k)` on an association list
(first binding for a key wins; well-formed states never hold duplicate keys). -/
def dictGet? {β : Type} : List (String × β) → String → Option β
  | [], _ => none
  | (k2, v) :: rest, k => if k2 = k then some v else dictGet? rest k

/-- Python `k in d` membership test. -/
def dictHasKey {β : Type} (d : List (String × β)) (k : String) : Bool :=
  (dictGet? d k).isSome

/-- Python dict assignment `d[k] = v`: overwrites the binding in place when
the key exists (preserving its position), appends a new binding otherwise. -/
def dictSet {β : Type} : List (String × β) → String → β → List (String × β)
  | [], k, v => [(k, v)]
  | (k2, v2) :: rest, k, v =>
    if k2 = k then (k, v) :: rest else (k2, v2) :: dictSet rest k v

/-- The keys of an association list, in order. -/
def dictKeys {β : Type} (d : List (String × β)) : List String :=
  d.map Prod.fst

/-- Number of bindings carrying the key `k`. -/
def countKey {β : Type} (d : List (String × β)) (k : String) : ℕ :=
  (d.filter (fun p => p.1 = k)).length

/-! ## image_tracker.py: raw posts and identifier derivation -/

/-- One raw Instagram post record as returned by the Apify scraper.
Optional string fields model the Python `dict.get` convention (absent key =
`none`); `isVideo` is the upstream-reported video flag. -/
structure Post where
  shortCode : Option String := none
  postId : Option String := none
  displayUrl : Option String := none
  images : List String := []
  ownerUsername : Option String := none
  timestamp : Option String := none
  url : Option String := none
  isVideo : Bool := false
  deriving DecidableEq

/-- Python truthiness of an optional string: `None` and the empty string are
falsy, everything else truthy. -/
def truthyStr : Option String → Bool
  | none => false
  | some s => !s.isEmpty

/-- The image URL chosen by `ImageTracker._generate_image_id`:
`post_data.get(displayUrl) or (post_data.get(images)[0] if ... else blank)` (quotes elided). -/
def imageUrlOf (post : Post) : String :=
  if truthyStr post.displayUrl then post.displayUrl.getD ("")
  else
    match post.images with
    | [] => ""
    | u :: _ => u

/-- Embedding of `ImageTracker._generate_image_id` (image_tracker.py lines 64-90).
`md5hex12` stands for the `hashlib.md5(...).hexdigest()[:12]` call (a fixed
pure function of the URL string); `now` is the formatted value of
`datetime.now()` at the moment of the call. -/
def generate_image_id (md5hex12 : String → String) (now : String) (post : Post) : String :=
  if truthyStr post.shortCode then post.shortCode.getD ("")
  else if truthyStr post.postId then post.postId.getD ("")
  else if !(imageUrlOf post).isEmpty then md5hex12 (imageUrlOf post)
  else ("unknown_" ++ now)

/-! ## video_detector.py: VideoThumbnailDetector

OpenCV decoding, template matching and the Hough line transform are external
image operations; they enter the embedding as a `DetectorEnv` record holding
their results for the image under analysis. Everything downstream of those
results (thresholding, filename heuristics, ratio bucketing, confidence
fusion) is translated from the source. -/

/-- External image-processing facts about one input file:
`cv_decoded` is whether `cv2.imread` produced an image (false also covers any
cv2 processing exception), `play_best_match` the best normalized
cross-correlation over all play-button templates and positions,
`progress_line_found` whether `HoughLinesP` yielded a qualifying roughly
horizontal line in the bottom 20% region, and `pil_dims` the `PIL.Image.open`
width and height (`none` when decoding fails). -/
structure DetectorEnv where
  cv_decoded : Bool
  play_best_match : ℚ
  progress_line_found : Bool
  pil_dims : Option (ℕ × ℕ)
  deriving DecidableEq

/-- Embedding of `VideoThumbnailDetector.detect_play_button` (video_detector.py lines
87-140): on decode failure returns `(false, 0.0)`; otherwise compares the best
template-match value against the threshold and reports both. -/
def detect_play_button (env : DetectorEnv) (threshold : ℚ) : Bool × ℚ :=
  if !env.cv_decoded then (false, 0)
  else (decide (env.play_best_match ≥ threshold), env.play_best_match)

/-- Embedding of `VideoThumbnailDetector._detect_video_ui_elements` (lines 280-322),
projected to the `progress_bar_detected` flag: false on decode failure,
otherwise whether a qualifying horizontal line was found. -/
def detect_video_ui_elements (env : DetectorEnv) : Bool :=
  if !env.cv_decoded then false else env.progress_line_found

/-- Result of `VideoThumbnailDetector._check_filename_indicators`
(lines 256-278). `suspicious_patterns` records the matched tokens (the
source stores formatted strings around the same tokens). -/
structure FilenameIndicators where
  has_video_suffix : Bool
  has_video_keywords : Bool
  suspicious_patterns : List String
  deriving DecidableEq

/-- The fixed suffix list of `_check_filename_indicators`. -/
def video_suffixes : List String := ["_v", "_video", "_vid", "_reel", "_story"]

/-- The fixed keyword list of `_check_filename_indicators`. -/
def video_keywords : List String := ["video", "reel", "story", "clip", "movie"]

/-- Embedding of `VideoThumbnailDetector._check_filename_indicators`: substring checks of
the (lowercased) basename against the fixed suffix and keyword lists. -/
def check_filename_indicators (filename : String) : FilenameIndicators :=
  let suffix_hits := video_suffixes.filter (fun s => containsSub filename s)
  let keyword_hits := video_keywords.filter (fun s => containsSub filename s)
  { has_video_suffix := !suffix_hits.isEmpty
    has_video_keywords := !keyword_hits.isEmpty
    suspicious_patterns := suffix_hits ++ keyword_hits }

/-- Result of `VideoThumbnailDetector._check_aspect_ratio` (lines 324-356). -/
structure AspectInfo where
  ratio_value : ℚ
  is_video_ratio : Bool
  ratio_type : String
  deriving DecidableEq

/-- The named buckets of `_check_aspect_ratio`, in source iteration order,
each with its target width/height value (tolerance is uniformly 0.1). -/
def video_ratio_buckets : List (String × ℚ) :=
  [("16:9", 16/9), ("4:3", 4/3), ("21:9", 21/9), ("9:16", 9/16), ("1:1", 1)]

/-- The bucket loop of `_check_aspect_ratio`: the first bucket whose target is
within 0.1 of the measured value wins. -/
def classifyBucket : List (String × ℚ) → ℚ → Option String
  | [], _ => none
  | (nm, target) :: rest, r =>
    if |r - target| ≤ 1/10 then some nm else classifyBucket rest r

/-- Embedding of `VideoThumbnailDetector._check_aspect_ratio`: decode failure leaves the
defaults (ratio 0.0, not a video ratio, type unknown); otherwise the
width/height value is classified into the first matching bucket. -/
def check_aspect_info (dims : Option (ℕ × ℕ)) : AspectInfo :=
  match dims with
  | none => { ratio_value := 0, is_video_ratio := false, ratio_type := ("unknown") }
  | some (w, h) =>
    let r : ℚ := (w : ℚ) / (h : ℚ)
    match classifyBucket video_ratio_buckets r with
    | some nm => { ratio_value := r, is_video_ratio := true, ratio_type := nm }
    | none => { ratio_value := r, is_video_ratio := false, ratio_type := ("unknown") }

/-- The `indicators` dictionary assembled by `detect_video_indicators`,
restricted to the fields `_calculate_overall_confidence` reads. -/
structure VideoIndicators where
  filename_info : FilenameIndicators
  play_button_detected : Bool
  play_button_confidence : ℚ
  ui_progress_bar : Bool
  aspect : AspectInfo
  deriving DecidableEq

/-- Embedding of `VideoThumbnailDetector._calculate_overall_confidence` (lines 358-385):
stepwise accumulation of the weighted sub-signals, capped at 1.0. -/
def calculate_overall_confidence (ind : VideoIndicators) : ℚ :=
  let c0 : ℚ := 0
  let c1 := if ind.play_button_detected then c0 + ind.play_button_confidence * (6/10) else c0
  let c2 := if ind.filename_info.has_video_suffix then c1 + 3/10 else c1
  let c3 := if ind.filename_info.has_video_keywords then c2 + 2/10 else c2
  let c4 := if ind.ui_progress_bar then c3 + 1/4 else c3
  let c5 := if ind.aspect.is_video_ratio ∧ ind.aspect.ratio_type = ("9:16") then c4 + 3/20 else c4
  min c5 1

/-- The dictionary returned by `detect_video_indicators`. -/
structure VideoDetectionResult where
  is_likely_video : Bool
  confidence_score : ℚ
  indicators : VideoIndicators
  deriving DecidableEq

/-- Embedding of `VideoThumbnailDetector.detect_video_indicators` (lines 207-254):
filename heuristics on the lowercased basename, play-button detection at the
default threshold 0.6, UI and aspect checks, then confidence fusion with the
final decision `confidence_score > 0.5`. `basename` is the
`os.path.basename` of the input path. -/
def detect_video_indicators (basename : String) (env : DetectorEnv) : VideoDetectionResult :=
  let fname := lowerStr basename
  let fi := check_filename_indicators fname
  let pb := detect_play_button env (6/10)
  let ui := detect_video_ui_elements env
  let ar := check_aspect_info env.pil_dims
  let ind : VideoIndicators := ⟨fi, pb.1, pb.2, ui, ar⟩
  let conf := calculate_overall_confidence ind
  ⟨decide (conf > 1/2), conf, ind⟩

/-! ## enhanced_content_filter.py: EnhancedContentFilter

The Google Vision call is an external collaborator; its labels and objects
enter the embedding as an optional `VisionResults` value (`none` models an
unavailable classifier, matching the `use_google_vision and vision_client`
guard). Image dimensions come from PIL decoding and are `none` when the
decode raises (the source then degrades the sub-score to 0.0). -/

/-- One classifier label or localized object: lowercased text plus the
classifier confidence. -/
structure LabelInfo where
  text : String
  confidence : ℚ
  deriving DecidableEq

/-- Labels and objects returned by `_analyze_with_google_vision`. -/
structure VisionResults where
  labels : List LabelInfo
  objects : List LabelInfo
  deriving DecidableEq

/-- One recorded keyword match inside `_match_categories`. -/
structure MatchEntry where
  keyword : String
  label : String
  score : ℚ
  mtype : String
  deriving DecidableEq

/-- The per-category value stored by `_match_categories`. -/
structure CategoryMatch where
  score : ℚ
  match_entries : List MatchEntry
  match_count : ℕ
  deriving DecidableEq

/-- One entry of the fixed `photography_categories` taxonomy. -/
structure CategoryInfo where
  name : String
  primary_keywords : List String
  secondary_keywords : List String
  related_objects : List String
  weight : ℚ

/-- The fixed taxonomy table of `EnhancedContentFilter.__init__`
(enhanced_content_filter.py lines 66-103). -/
def photography_categories : List CategoryInfo :=
  [ { name := ("landscape")
      primary_keywords := ["landscape", "mountain", "valley", "horizon", "countryside", "scenic", "vista", "panorama"]
      secondary_keywords := ["nature", "outdoor", "field", "hill", "meadow", "plain", "terrain"]
      related_objects := ["tree", "rock", "grass", "sky", "cloud"]
      weight := 1 },
    { name := ("sunset")
      primary_keywords := ["sunset", "sunrise", "golden hour", "dusk", "dawn", "twilight"]
      secondary_keywords := ["orange", "golden", "warm light", "evening", "morning"]
      related_objects := ["sun", "sky", "cloud", "horizon"]
      weight := 1 },
    { name := ("water")
      primary_keywords := ["ocean", "sea", "lake", "river", "waterfall", "stream", "water", "beach", "coast"]
      secondary_keywords := ["wave", "shore", "coastal", "marine", "aquatic", "fluid"]
      related_objects := ["boat", "fish", "sand", "rock"]
      weight := 1 },
    { name := ("urban")
      primary_keywords := ["city", "urban", "building", "architecture", "street", "downtown"]
      secondary_keywords := ["metropolitan", "skyscraper", "cityscape", "modern"]
      related_objects := ["car", "person", "window", "door", "sign"]
      weight := 8/10 },
    { name := ("nature")
      primary_keywords := ["nature", "forest", "tree", "flower", "plant", "wildlife", "animal"]
      secondary_keywords := ["natural", "organic", "botanical", "flora", "fauna"]
      related_objects := ["leaf", "branch", "bird", "insect"]
      weight := 9/10 },
    { name := ("mountains")
      primary_keywords := ["mountain", "peak", "summit", "alpine", "ridge", "cliff"]
      secondary_keywords := ["rocky", "steep", "elevation", "highland"]
      related_objects := ["snow", "rock", "tree", "sky"]
      weight := 1 } ]

/-- The keyword test of `_match_categories`:
`keyword in label_text or label_text in keyword`. -/
def keywordMatches (kw lbl : String) : Bool :=
  containsSub lbl kw || containsSub kw lbl

/-- The inner keyword loop of `_match_categories` for one tier: every
matching keyword contributes `label_confidence * tier_weight` and one
recorded match, in keyword-list order. -/
def tierMatches (tier_weight : ℚ) (mtype : String) (kws : List String) (lbl_text : String)
    (lbl_conf : ℚ) : List MatchEntry :=
  kws.filterMap (fun kw =>
    if keywordMatches kw lbl_text then
      some { keyword := kw, label := lbl_text, score := lbl_conf * tier_weight, mtype := mtype }
    else none)

/-- The per-label body of `_match_categories`: primary (weight 1.0), then
secondary (0.6), then related-object (0.3) keyword tiers, on the lowercased
label text. -/
def labelMatches (ci : CategoryInfo) (lbl : LabelInfo) : List MatchEntry :=
  let t := lowerStr lbl.text
  tierMatches 1 ("primary") ci.primary_keywords t lbl.confidence
    ++ tierMatches (6/10) ("secondary") ci.secondary_keywords t lbl.confidence
    ++ tierMatches (3/10) ("related") ci.related_objects t lbl.confidence

/-- The per-category accumulation of `_match_categories`: collect all tier
matches over all labels, sum their scores, and multiply by the category
weight. -/
def categoryMatchFor (ci : CategoryInfo) (all_labels : List LabelInfo) : CategoryMatch :=
  let ms := all_labels.flatMap (labelMatches ci)
  let raw := (ms.map (fun m => m.score)).sum
  { score := raw * ci.weight, match_entries := ms, match_count := ms.length }

/-- Embedding of `EnhancedContentFilter._match_categories` (lines 230-309): labels then
objects form the combined label list, and every taxonomy category receives an
entry (score 0 when nothing matches). -/
def match_categories (labels objects : List LabelInfo) : List (String × CategoryMatch) :=
  let all_labels := labels ++ objects
  photography_categories.map (fun ci => (ci.name, categoryMatchFor ci all_labels))

/-- Embedding of `EnhancedContentFilter._assess_image_quality` (lines 311-335): weighted
blend of resolution against 1920x1080, aspect acceptability, and
shortest-side size against 1200 px; 0.0 when the image cannot be opened. -/
def assess_image_quality (dims : Option (ℕ × ℕ)) : ℚ :=
  match dims with
  | none => 0
  | some (w, h) =>
    let resolution_score : ℚ := min 1 ((w * h : ℚ) / (1920 * 1080))
    let aspect : ℚ := (w : ℚ) / (h : ℚ)
    let aspect_score : ℚ := if 1/2 ≤ aspect ∧ aspect ≤ 2 then 1 else 1/2
    let min_dimension : ℚ := min (w : ℚ) (h : ℚ)
    let size_score : ℚ := min 1 (min_dimension / 1200)
    resolution_score * (4/10) + aspect_score * (3/10) + size_score * (3/10)

/-- The content-suitability loop of `_assess_print_suitability` (lines
363-368): the largest category score strictly above 0.5, else 0.0. -/
def content_suitability (cm : List (String × CategoryMatch)) : ℚ :=
  cm.foldl (fun acc c => if c.2.score > 1/2 then max acc c.2.score else acc) 0

/-- Embedding of `EnhancedContentFilter._assess_print_suitability` (lines 337-381):
printable-size score at 150 DPI against a 24 inch reference (weight 0.4),
wall-art aspect tiering (0.3), and the content-suitability term (0.3);
0.0 when the image cannot be opened. -/
def assess_print_suitability (dims : Option (ℕ × ℕ))
    (cm : List (String × CategoryMatch)) : ℚ :=
  match dims with
  | none => 0
  | some (w, h) =>
    let max_print_width : ℚ := (w : ℚ) / 150
    let max_print_height : ℚ := (h : ℚ) / 150
    let max_print_size : ℚ := max max_print_width max_print_height
    let print_size_score : ℚ := min 1 (max_print_size / 24)
    let aspect : ℚ := (w : ℚ) / (h : ℚ)
    let aspect_suitability : ℚ :=
      if 7/10 ≤ aspect ∧ aspect ≤ 3/2 then 1
      else if 1/2 ≤ aspect ∧ aspect ≤ 2 then 8/10
      else 1/2
    print_size_score * (4/10) + aspect_suitability * (3/10) + content_suitability cm * (3/10)

/-- The best-category loop of `_calculate_overall_score` (lines 395-398):
running maximum of the category scores, starting from 0.0. -/
def best_category_score (cm : List (String × CategoryMatch)) : ℚ :=
  cm.foldl (fun acc c => max acc c.2.score) 0

/-- The analysis dictionary built by `analyze_image_content`, restricted to
the fields the scoring pipeline and its callers read. Defaults mirror the
initial dictionary of lines 117-127. -/
structure Analysis where
  is_video_thumbnail : Bool := false
  video_confidence : ℚ := 0
  google_vision_labels : List LabelInfo := []
  google_vision_objects : List LabelInfo := []
  category_matches : List (String × CategoryMatch) := []
  quality_score : ℚ := 0
  print_suitability : ℚ := 0
  overall_score : ℚ := 0
  deriving DecidableEq

/-- Embedding of `EnhancedContentFilter._calculate_overall_score` (lines 383-410):
0.0 for video thumbnails, else quality x 0.3 + print suitability x 0.4 +
min(1, best category score / 2) x 0.3, with no further clamping. -/
def calculate_overall_score (a : Analysis) : ℚ :=
  if a.is_video_thumbnail then 0
  else
    let best := best_category_score a.category_matches
    let normalized_category_score := min 1 (best / 2)
    a.quality_score * (3/10) + a.print_suitability * (4/10) + normalized_category_score * (3/10)

/-- Embedding of `EnhancedContentFilter.analyze_image_content` (lines 107-164): run the
detector, short-circuit for video thumbnails, otherwise classifier results,
category matching, quality, print-suitability and overall-score fusion.
`video` is the detector result for the image, `vision` the classifier output
(`none` when disabled or uninitialized), `dims` the PIL dimensions. -/
def analyze_image_content (video : VideoDetectionResult) (vision : Option VisionResults)
    (dims : Option (ℕ × ℕ)) : Analysis :=
  let base : Analysis :=
    { is_video_thumbnail := video.is_likely_video, video_confidence := video.confidence_score }
  if video.is_likely_video then base
  else
    let labels := match vision with | some v => v.labels | none => []
    let objects := match vision with | some v => v.objects | none => []
    let cm := match_categories labels objects
    let a1 : Analysis :=
      { base with
        google_vision_labels := labels
        google_vision_objects := objects
        category_matches := cm
        quality_score := assess_image_quality dims }
    let a2 : Analysis := { a1 with print_suitability := assess_print_suitability dims cm }
    { a2 with overall_score := calculate_overall_score a2 }

/-- The wanted-category loop of `meets_content_criteria` (lines 441-446):
best score among the requested categories present in the match table. -/
def best_wanted_score (cm : List (String × CategoryMatch)) (cats : List String) : ℚ :=
  cats.foldl (fun best c =>
    match dictGet? cm c with
    | some m => max best m.score
    | none => best) 0

/-- The decision chain of `EnhancedContentFilter.meets_content_criteria`
(lines 430-455) applied to an analysis: video thumbnail, then quality
threshold, then (for a non-empty wanted list) best wanted-category score,
then overall threshold. -/
def meets_content_criteria (a : Analysis) (cats : List String)
    (minQ minC minO : ℚ) : Bool :=
  if a.is_video_thumbnail then false
  else if a.quality_score < minQ then false
  else if cats ≠ [] ∧ best_wanted_score a.category_matches cats < minC then false
  else if a.overall_score < minO then false
  else true

/-! ## image_tracker.py: ImageTracker state and operations

The tracker persists `processed_images` as a JSON object keyed by image id;
the embedding keeps the in-memory dictionary (the authoritative state: file
writes are fire-and-forget in the source). -/

/-- The `analysis` projection stored by `mark_processed` (lines 130-136). -/
structure AnalysisSummary where
  overall_score : ℚ
  quality_score : ℚ
  is_video_thumbnail : Bool
  category_matches : List (String × CategoryMatch)
  deriving DecidableEq

/-- One ledger record as written by `mark_processed` (lines 117-127). -/
structure TrackingEntry where
  image_id : String
  shortcode : Option String
  post_id : Option String
  owner_username : Option String
  timestamp : Option String
  url : Option String
  status : String
  processed_at : String
  local_path : Option String
  analysis : Option AnalysisSummary
  deriving DecidableEq

/-- The mutable state of an `ImageTracker`. -/
structure ImageTrackerState where
  processed_images : List (String × TrackingEntry)
  deriving DecidableEq

/-- The tracking entry assembled by `mark_processed`; `now` is the
`datetime.now().isoformat()` timestamp of the call. -/
def mkTrackingEntry (md5hex12 : String → String) (now : String) (post : Post)
    (status : String) (analysisOpt : Option Analysis) (local_path : Option String) :
    TrackingEntry :=
  { image_id := generate_image_id md5hex12 now post
    shortcode := post.shortCode
    post_id := post.postId
    owner_username := post.ownerUsername
    timestamp := post.timestamp
    url := post.url
    status := status
    processed_at := now
    local_path := local_path
    analysis := analysisOpt.map (fun a =>
      { overall_score := a.overall_score
        quality_score := a.quality_score
        is_video_thumbnail := a.is_video_thumbnail
        category_matches := a.category_matches }) }

/-- Embedding of `ImageTracker.mark_processed` (lines 105-141): keyed assignment of the
fresh tracking entry into `processed_images`. -/
def mark_processed (md5hex12 : String → String) (now : String) (st : ImageTrackerState)
    (post : Post) (status : String) (analysisOpt : Option Analysis)
    (local_path : Option String) : ImageTrackerState :=
  let image_id := generate_image_id md5hex12 now post
  ⟨dictSet st.processed_images image_id
    (mkTrackingEntry md5hex12 now post status analysisOpt local_path)⟩

/-- Embedding of `ImageTracker.is_processed` (lines 92-103): key membership of the derived
image id. -/
def is_processed (md5hex12 : String → String) (now : String) (st : ImageTrackerState)
    (post : Post) : Bool :=
  dictHasKey st.processed_images (generate_image_id md5hex12 now post)

/-- Embedding of `ImageTracker.get_unprocessed_posts` (lines 167-186): keep, in input
order, exactly the posts the ledger does not know. -/
def get_unprocessed_posts (md5hex12 : String → String) (now : String)
    (st : ImageTrackerState) : List Post → List Post
  | [] => []
  | p :: rest =>
    if is_processed md5hex12 now st p then get_unprocessed_posts md5hex12 now st rest
    else p :: get_unprocessed_posts md5hex12 now st rest

/-- Embedding of `ImageTracker.get_processed_count` (lines 143-156). -/
def get_processed_count (st : ImageTrackerState) (statusFilter : Option String) : ℕ :=
  match statusFilter with
  | none => st.processed_images.length
  | some s => (st.processed_images.filter (fun p => p.2.status = s)).length

/-- Embedding of `ImageTracker.get_accepted_images` (lines 158-165). -/
def get_accepted_images (st : ImageTrackerState) : List TrackingEntry :=
  (st.processed_images.filter (fun p => p.2.status = ("accepted"))).map Prod.snd

/-- The dictionary returned by `ImageTracker.get_stats` (lines 216-234). -/
structure TrackerStats where
  total_processed : ℕ
  accepted : ℕ
  rejected : ℕ
  errors : ℕ
  acceptance_rate : ℚ
  deriving DecidableEq

/-- Embedding of `ImageTracker.get_stats`. -/
def get_stats (st : ImageTrackerState) : TrackerStats :=
  let total := st.processed_images.length
  let accepted := get_processed_count st (some ("accepted"))
  let rejected := get_processed_count st (some ("rejected"))
  let errors := get_processed_count st (some ("error"))
  { total_processed := total
    accepted := accepted
    rejected := rejected
    errors := errors
    acceptance_rate := if total > 0 then (accepted : ℚ) / (total : ℚ) * 100 else 0 }

/-! ## batch_processor.py: BatchProcessor

The Apify scrape call and the per-item download/analysis pipeline are
network-bound; their outcomes enter the embedding as a per-iteration
environment. The controller logic itself (early-exit check, photo filter,
dedup filter, accumulators, result assembly, reporting) is translated from
`process_batch`, `_scrape_posts_iteration`, `_process_posts_iteration` and
`_download_and_analyze_image`. -/

/-- The terminal outcome of `_download_and_analyze_image` /
`_process_posts_iteration` for a single post: the status recorded in the
tracker. -/
inductive ItemOutcome
  | accepted
  | rejected
  | errored
  deriving DecidableEq

/-- The tracker status string written for an item outcome. -/
def outcomeStatus : ItemOutcome → String
  | .accepted => "accepted"
  | .rejected => "rejected"
  | .errored => "error"

/-- Environment of one controller iteration: `scraped` is the raw post list
produced by the scrape round ( `[]` models a failed or empty round), and
`outcome` gives the per-item pipeline result for each post. -/
structure IterEnv where
  scraped : List Post
  outcome : Post → ItemOutcome

/-- Embedding of `BatchProcessor._scrape_posts_iteration` (lines 209-239): downstream of
the Apify calls, the controller keeps only posts whose upstream `isVideo`
flag is false; failures yield the empty list. -/
def scrape_posts_iteration (e : IterEnv) : List Post :=
  e.scraped.filter (fun p => !p.isVideo)

/-- Embedding of `BatchProcessor._process_posts_iteration` (lines 241-273): each post is
marked in the tracker with its outcome status, and accepted posts are
accumulated in order. Returns the updated tracker and the accepted list. -/
def process_posts_iteration (md5hex12 : String → String) (now : String)
    (tr : ImageTrackerState) (posts : List Post) (outcome : Post → ItemOutcome) :
    ImageTrackerState × List Post :=
  posts.foldl
    (fun acc post =>
      let tr2 := mark_processed md5hex12 now acc.1 post (outcomeStatus (outcome post)) none none
      (tr2, if outcome post = ItemOutcome.accepted then acc.2 ++ [post] else acc.2))
    (tr, [])

/-- One element of the `iteration_results` list (lines 162-168). -/
structure IterationStat where
  iteration : ℕ
  posts_scraped : ℕ
  posts_processed : ℕ
  accepted : ℕ
  deriving DecidableEq

/-- The loop-carried state of `process_batch`. -/
structure LoopState where
  tracker : ImageTrackerState
  accepted_images : List Post
  iteration_results : List IterationStat
  total_posts_scraped : ℕ
  total_posts_processed : ℕ

/-- The dictionary returned by `process_batch` (lines 180-193), restricted to
the fields with controller content. -/
structure BatchResult where
  success : Bool
  target_count : ℕ
  accepted_count : ℕ
  new_accepted_count : ℕ
  existing_accepted_count : ℕ
  total_posts_scraped : ℕ
  total_posts_processed : ℕ
  iterations_completed : ℕ
  accepted_images : List Post
  iteration_results : List IterationStat
  tracker_stats : TrackerStats

/-- The `for iteration in range(max_iterations)` loop of `process_batch`
(lines 119-174). `envs` carries one environment per remaining iteration (its
length is the remaining iteration budget); `idx` is the zero-based index of
the next iteration. Breaking on a reached target returns the state
unchanged; an empty scrape round or a fully deduplicated round falls through
to the next iteration. -/
def batch_loop (md5hex12 : String → String) (now : String) (target existingCount : ℕ) :
    List IterEnv → ℕ → LoopState → LoopState
  | [], _, st => st
  | e :: rest, idx, st =>
    if st.accepted_images.length + existingCount ≥ target then st
    else
      let posts := scrape_posts_iteration e
      if posts.isEmpty then batch_loop md5hex12 now target existingCount rest (idx + 1) st
      else
        let st1 := { st with total_posts_scraped := st.total_posts_scraped + posts.length }
        let unprocessed_posts := get_unprocessed_posts md5hex12 now st1.tracker posts
        if unprocessed_posts.isEmpty then
          batch_loop md5hex12 now target existingCount rest (idx + 1) st1
        else
          let pr := process_posts_iteration md5hex12 now st1.tracker unprocessed_posts e.outcome
          let st2 : LoopState :=
            { tracker := pr.1
              accepted_images := st1.accepted_images ++ pr.2
              iteration_results := st1.iteration_results ++
                [{ iteration := idx + 1
                   posts_scraped := posts.length
                   posts_processed := unprocessed_posts.length
                   accepted := pr.2.length }]
              total_posts_scraped := st1.total_posts_scraped
              total_posts_processed := st1.total_posts_processed + unprocessed_posts.length }
          batch_loop md5hex12 now target existingCount rest (idx + 1) st2

/-- The body of `BatchProcessor.process_batch` after the client guard
(lines 93-207): read the previously accepted entries, run the bounded loop,
and assemble the result record with
`success := final_accepted_count >= target_count`. -/
def process_batch_core (md5hex12 : String → String) (now : String) (target : ℕ)
    (envs : List IterEnv) (tracker : ImageTrackerState) : BatchResult :=
  let existing_accepted := get_accepted_images tracker
  let final := batch_loop md5hex12 now target existing_accepted.length envs 0
    { tracker := tracker, accepted_images := [], iteration_results := []
      total_posts_scraped := 0, total_posts_processed := 0 }
  let final_accepted_count := final.accepted_images.length + existing_accepted.length
  { success := decide (final_accepted_count ≥ target)
    target_count := target
    accepted_count := final_accepted_count
    new_accepted_count := final.accepted_images.length
    existing_accepted_count := existing_accepted.length
    total_posts_scraped := final.total_posts_scraped
    total_posts_processed := final.total_posts_processed
    iterations_completed := final.iteration_results.length
    accepted_images := final.accepted_images
    iteration_results := final.iteration_results
    tracker_stats := get_stats final.tracker }

/-- Embedding of `BatchProcessor.process_batch` (lines 65-207): raises `ValueError` when
the Apify client failed to initialize, otherwise runs the batch loop to a
normal `BatchResult`. The iteration budget `max_iterations` is the length of
`envs`. -/
def process_batch (md5hex12 : String → String) (now : String) (client_ok : Bool)
    (target : ℕ) (envs : List IterEnv) (tracker : ImageTrackerState) :
    Except String BatchResult :=
  if !client_ok then Except.error ("Apify client not initialized")
  else Except.ok (process_batch_core md5hex12 now target envs tracker)

/-- The machine-readable rejection reasons assigned by
`BatchProcessor._download_and_analyze_image` (lines 351-360). -/
inductive RejectionReason
  | videoThumbnail
  | overallScore
  | qualityScore
  | categoryCriteria
  deriving DecidableEq

/-- The rejection-reason chain of `_download_and_analyze_image` (lines
351-360), evaluated when `meets_content_criteria` returned false: video
thumbnail, then overall score, then quality score, then the category
fallback. -/
def rejection_reason (a : Analysis) (minQ minO : ℚ) : RejectionReason :=
  if a.is_video_thumbnail then RejectionReason.videoThumbnail
  else if a.overall_score < minO then RejectionReason.overallScore
  else if a.quality_score < minQ then RejectionReason.qualityScore
  else RejectionReason.categoryCriteria

/-! ## Definitions following the words of the spec, for refinement comparison -/

/-- Follows the words of claim C2 (first failing check in the order video
thumbnail, quality, wanted category, overall determines the machine-readable
rejection reason), for comparison with the source-derived `rejection_reason`. -/
def claimed_rejection_reason (a : Analysis) (cats : List String)
    (minQ minC minO : ℚ) : Option RejectionReason :=
  if a.is_video_thumbnail then some RejectionReason.videoThumbnail
  else if a.quality_score < minQ then some RejectionReason.qualityScore
  else if cats ≠ [] ∧ best_wanted_score a.category_matches cats < minC then
    some RejectionReason.categoryCriteria
  else if a.overall_score < minO then some RejectionReason.overallScore
  else none

/-- Follows the words of claim C6 (content term = the best single
category-match score, unconditionally), for comparison with the
source-derived `assess_print_suitability`. -/
def claimed_print_suitability (dims : Option (ℕ × ℕ))
    (cm : List (String × CategoryMatch)) : ℚ :=
  match dims with
  | none => 0
  | some (w, h) =>
    let print_size_score : ℚ := min 1 (max ((w : ℚ) / 150) ((h : ℚ) / 150) / 24)
    let aspect : ℚ := (w : ℚ) / (h : ℚ)
    let aspect_suitability : ℚ :=
      if 7/10 ≤ aspect ∧ aspect ≤ 3/2 then 1
      else if 1/2 ≤ aspect ∧ aspect ≤ 2 then 8/10
      else 1/2
    print_size_score * (4/10) + aspect_suitability * (3/10) + best_category_score cm * (3/10)

/-- Follows the words of claim C7 (weighted sum with an ungated 0.6 x best
play-button match confidence term, capped at 1.0), for comparison with the
source-derived `calculate_overall_confidence`. -/
def claimed_confidence (ind : VideoIndicators) : ℚ :=
  min 1 (ind.play_button_confidence * (6/10)
    + (if ind.filename_info.has_video_suffix then 3/10 else 0)
    + (if ind.filename_info.has_video_keywords then 2/10 else 0)
    + (if ind.ui_progress_bar then 1/4 else 0)
    + (if ind.aspect.is_video_ratio ∧ ind.aspect.ratio_type = ("9:16") then 3/20 else 0))

/-! ## Helper lemmas -/

/-- The identifier derivation ignores the clock whenever the record carries a
short-code, a post id, or a nonempty image URL. -/
theorem generate_image_id_time_inv (md5 : String → String) (p : Post)
    (h : truthyStr p.shortCode = true ∨ truthyStr p.postId = true ∨
      (imageUrlOf p).isEmpty = false) (n1 n2 : String) :
    generate_image_id md5 n1 p = generate_image_id md5 n2 p := by
  unfold generate_image_id
  cases h1 : truthyStr p.shortCode <;> cases h2 : truthyStr p.postId <;>
    cases h3 : (imageUrlOf p).isEmpty <;> simp_all

/-- Lookup after `dictSet` at the written key returns the new value. -/
theorem dictGet?_dictSet_self {β : Type} (d : List (String × β)) (k : String) (v : β) :
    dictGet? (dictSet d k v) k = some v := by
  induction d with
  | nil => simp [dictSet, dictGet?]
  | cons p rest ih =>
    by_cases h : p.1 = k
    · simp [dictSet, dictGet?, h]
    · simpa [dictSet, dictGet?, h] using ih

/-- Unfolding equation for `countKey` on a cons cell. -/
theorem countKey_cons {β : Type} (p : String × β) (rest : List (String × β)) (k : String) :
    countKey (p :: rest) k = (if p.1 = k then 1 else 0) + countKey rest k := by
  by_cases h : p.1 = k
  · simp only [countKey, List.filter_cons, h]
    simp
    omega
  · simp only [countKey, List.filter_cons, h]
    simp

/-- Keys absent from the dictionary bind zero times. -/
theorem countKey_eq_zero {β : Type} (d : List (String × β)) (k : String)
    (h : k ∉ dictKeys d) : countKey d k = 0 := by
  induction d with
  | nil => rfl
  | cons p rest ih =>
    simp only [dictKeys, List.map_cons, List.mem_cons, not_or] at h
    have hk : ¬ p.1 = k := fun hc => h.1 hc.symm
    rw [countKey_cons, if_neg hk, ih (by simpa [dictKeys] using h.2)]

/-- Key counts in a duplicate-free dictionary are at most one. -/
theorem countKey_le_one_of_nodup {β : Type} (d : List (String × β))
    (h : (dictKeys d).Nodup) (k : String) : countKey d k ≤ 1 := by
  induction d with
  | nil => simp [countKey]
  | cons p rest ih =>
    simp only [dictKeys, List.map_cons, List.nodup_cons] at h
    rw [countKey_cons]
    by_cases hk : p.1 = k
    · have h0 : countKey rest k = 0 := countKey_eq_zero rest k (hk ▸ h.1)
      rw [if_pos hk, h0]
    · have := ih (by simpa [dictKeys] using h.2)
      rw [if_neg hk]
      omega

/-- After a `dictSet`, the written key binds exactly once, provided it bound
at most once before. -/
theorem countKey_dictSet {β : Type} (d : List (String × β)) (k : String) (v : β)
    (h : countKey d k ≤ 1) : countKey (dictSet d k v) k = 1 := by
  induction d with
  | nil => simp [dictSet, countKey]
  | cons p rest ih =>
    rw [countKey_cons] at h
    by_cases hk : p.1 = k
    · rw [if_pos hk] at h
      have hr : countKey rest k = 0 := by omega
      simp only [dictSet, if_pos hk]
      rw [countKey_cons, if_pos rfl, hr]
    · rw [if_neg hk] at h
      simp only [dictSet, if_neg hk]
      rw [countKey_cons, if_neg hk, ih (by omega)]

/-- Every key of `dictSet d k v` is a key of `d` or the written key. -/
theorem mem_dictKeys_dictSet {β : Type} (d : List (String × β)) (k : String) (v : β)
    (x : String) (h : x ∈ dictKeys (dictSet d k v)) : x ∈ dictKeys d ∨ x = k := by
  induction d with
  | nil => simpa [dictSet, dictKeys] using h
  | cons p rest ih =>
    by_cases hk : p.1 = k
    · simp only [dictSet, if_pos hk, dictKeys, List.map_cons, List.mem_cons] at h
      rcases h with h | h
      · exact Or.inr h
      · exact Or.inl (by simp [dictKeys, List.mem_cons]; right; simpa [dictKeys] using h)
    · simp only [dictSet, if_neg hk, dictKeys, List.map_cons, List.mem_cons] at h
      rcases h with h | h
      · exact Or.inl (by simp [dictKeys, h])
      · rcases ih (by simpa [dictKeys] using h) with h2 | h2
        · exact Or.inl (by simp [dictKeys]; right; simpa [dictKeys] using h2)
        · exact Or.inr h2

/-- The operation `dictSet` preserves duplicate-freeness of the key list. -/
theorem nodup_dictKeys_dictSet {β : Type} (d : List (String × β)) (k : String) (v : β)
    (h : (dictKeys d).Nodup) : (dictKeys (dictSet d k v)).Nodup := by
  induction d with
  | nil => simp [dictSet, dictKeys]
  | cons p rest ih =>
    simp only [dictKeys, List.map_cons, List.nodup_cons] at h
    by_cases hk : p.1 = k
    · simp only [dictSet, if_pos hk, dictKeys, List.map_cons, List.nodup_cons]
      exact ⟨hk ▸ h.1, by simpa [dictKeys] using h.2⟩
    · simp only [dictSet, if_neg hk, dictKeys, List.map_cons, List.nodup_cons]
      refine ⟨fun hc => ?_, ih (by simpa [dictKeys] using h.2)⟩
      rcases mem_dictKeys_dictSet rest k v p.1 (by simpa [dictKeys] using hc) with h2 | h2
      · exact h.1 (by simpa [dictKeys] using h2)
      · exact hk h2

/-- Pulling a `max` out of the best-category fold. -/
theorem best_fold_max_comm (cm : List (String × CategoryMatch)) :
    ∀ a b : ℚ,
      cm.foldl (fun acc c => max acc c.2.score) (max a b) =
        max a (cm.foldl (fun acc c => max acc c.2.score) b) := by
  induction cm with
  | nil => intro a b; simp
  | cons c rest ih =>
    intro a b
    simp only [List.foldl_cons]
    rw [max_assoc]
    exact ih a (max b c.2.score)

/-- The best-category fold only grows its accumulator. -/
theorem le_best_fold (cm : List (String × CategoryMatch)) :
    ∀ a : ℚ, a ≤ cm.foldl (fun acc c => max acc c.2.score) a := by
  induction cm with
  | nil => intro a; simp
  | cons c rest ih =>
    intro a
    simp only [List.foldl_cons]
    exact le_trans (le_max_left a c.2.score) (ih (max a c.2.score))

/-- The best category score is never negative (the fold starts from 0.0). -/
theorem best_category_score_nonneg (cm : List (String × CategoryMatch)) :
    0 ≤ best_category_score cm :=
  le_best_fold cm 0

/-- Every category score is bounded by the best category score. -/
theorem score_le_best_category_score (cm : List (String × CategoryMatch)) :
    ∀ c ∈ cm, c.2.score ≤ best_category_score cm := by
  induction cm with
  | nil => intro c hc; cases hc
  | cons c0 rest ih =>
    intro c hc
    have hbest : best_category_score (c0 :: rest) =
        max c0.2.score (best_category_score rest) := by
      show (c0 :: rest).foldl (fun acc c => max acc c.2.score) 0 = _
      rw [List.foldl_cons]
      have : max (0 : ℚ) c0.2.score = max c0.2.score 0 := max_comm _ _
      rw [this]
      exact best_fold_max_comm rest c0.2.score 0
    rcases List.mem_cons.mp hc with h | h
    · rw [hbest, h]
      exact le_max_left _ _
    · rw [hbest]
      exact le_trans (ih c h) (le_max_right _ _)

/-- Pulling a `max` out of the content-suitability fold. -/
theorem content_fold_max_comm (cm : List (String × CategoryMatch)) :
    ∀ a b : ℚ,
      cm.foldl (fun acc c => if c.2.score > 1/2 then max acc c.2.score else acc) (max a b) =
        max a (cm.foldl (fun acc c => if c.2.score > 1/2 then max acc c.2.score else acc) b) := by
  induction cm with
  | nil => intro a b; simp
  | cons c rest ih =>
    intro a b
    simp only [List.foldl_cons]
    by_cases h : c.2.score > 1/2
    · rw [if_pos h, if_pos h, max_assoc]
      exact ih a (max b c.2.score)
    · rw [if_neg h, if_neg h]
      exact ih a b

/-- The content-suitability term of `_assess_print_suitability` equals the
best category score gated at the strict 0.5 threshold. -/
theorem content_suitability_eq (cm : List (String × CategoryMatch)) :
    content_suitability cm =
      if best_category_score cm > 1/2 then best_category_score cm else 0 := by
  induction cm with
  | nil =>
    simp [content_suitability, best_category_score]
  | cons c rest ih =>
    have hbest : best_category_score (c :: rest) =
        max c.2.score (best_category_score rest) := by
      show (c :: rest).foldl (fun acc c => max acc c.2.score) 0 = _
      rw [List.foldl_cons]
      have h0 : max (0 : ℚ) c.2.score = max c.2.score 0 := max_comm _ _
      rw [h0]
      exact best_fold_max_comm rest c.2.score 0
    have hrest0 : (0 : ℚ) ≤ best_category_score rest := best_category_score_nonneg rest
    have hcont : content_suitability (c :: rest) =
        (if c.2.score > 1/2 then
          max c.2.score (content_suitability rest) else content_suitability rest) := by
      show (c :: rest).foldl _ 0 = _
      rw [List.foldl_cons]
      by_cases h : c.2.score > 1/2
      · rw [if_pos h, if_pos h]
        have h0 : max (0 : ℚ) c.2.score = max c.2.score 0 := max_comm _ _
        rw [h0]
        exact content_fold_max_comm rest c.2.score 0
      · rw [if_neg h, if_neg h]
        rfl
    rw [hcont, hbest, ih]
    by_cases hc : c.2.score > 1/2
    · rw [if_pos hc]
      have hmax : max c.2.score (best_category_score rest) > 1/2 :=
        lt_of_lt_of_le hc (le_max_left _ _)
      rw [if_pos hmax]
      by_cases hb : best_category_score rest > 1/2
      · rw [if_pos hb]
      · rw [if_neg hb]
        have hble : best_category_score rest ≤ c.2.score := by
          push_neg at hb
          linarith
        have h0c : (0 : ℚ) ≤ c.2.score := by linarith
        rw [max_eq_left h0c, max_eq_left hble]
    · rw [if_neg hc]
      push_neg at hc
      by_cases hb : best_category_score rest > 1/2
      · rw [if_pos hb]
        have : max c.2.score (best_category_score rest) > 1/2 :=
          lt_of_lt_of_le hb (le_max_right _ _)
        rw [if_pos this, max_eq_right (by linarith)]
      · rw [if_neg hb]
        push_neg at hb
        have : ¬ max c.2.score (best_category_score rest) > 1/2 := by
          push_neg
          exact max_le hc hb
        rw [if_neg this]

/-- Each loop round appends at most one entry to `iteration_results`, so the
loop completes at most as many processing iterations as it has environments
(= the `max_iterations` budget). -/
theorem batch_loop_iterations_le (md5 : String → String) (now : String)
    (target exist : ℕ) :
    ∀ (envs : List IterEnv) (idx : ℕ) (st : LoopState),
      (batch_loop md5 now target exist envs idx st).iteration_results.length ≤
        st.iteration_results.length + envs.length := by
  intro envs
  induction envs with
  | nil =>
    intro idx st
    simp [batch_loop]
  | cons e rest ih =>
    intro idx st
    by_cases h1 : st.accepted_images.length + exist ≥ target
    · simp only [batch_loop, if_pos h1, List.length_cons]
      omega
    · by_cases h2 : (scrape_posts_iteration e).isEmpty = true
      · simp only [batch_loop, if_neg h1, h2, if_true, List.length_cons]
        have := ih (idx + 1) st
        omega
      · by_cases h3 : (get_unprocessed_posts md5 now st.tracker (scrape_posts_iteration e)).isEmpty = true
        · simp only [batch_loop, if_neg h1, h2, Bool.false_eq_true, if_false, h3, if_true,
            List.length_cons]
          have := ih (idx + 1)
            { st with total_posts_scraped := st.total_posts_scraped + (scrape_posts_iteration e).length }
          simp only at this
          omega
        · simp only [batch_loop, if_neg h1, h2, Bool.false_eq_true, if_false, h3,
            List.length_cons]
          set st1 : LoopState :=
            { st with total_posts_scraped := st.total_posts_scraped + (scrape_posts_iteration e).length } with hst1
          set unp := get_unprocessed_posts md5 now st1.tracker (scrape_posts_iteration e) with hunp
          set pr := process_posts_iteration md5 now st1.tracker unp e.outcome with hpr
          have := ih (idx + 1)
            { tracker := pr.1
              accepted_images := st1.accepted_images ++ pr.2
              iteration_results := st1.iteration_results ++
                [{ iteration := idx + 1
                   posts_scraped := (scrape_posts_iteration e).length
                   posts_processed := unp.length
                   accepted := pr.2.length }]
              total_posts_scraped := st1.total_posts_scraped
              total_posts_processed := st1.total_posts_processed + unp.length }
          simp only [List.length_append, List.length_cons, List.length_nil] at this ⊢
          omega

/-- C1: `process_batch` with an initialized client returns normally. The
loop executes at most `max_iterations` (= the length of the iteration
environment list) scrape-process iterations, and the `success` field of the result
field is true exactly when the newly accepted count plus the previously
accepted ledger entries reaches the target; exhausting the budget under
target still returns a normal result. -/
theorem C1_process_batch_stopping (md5 : String → String) (now : String) (target : ℕ)
    (envs : List IterEnv) (tracker : ImageTrackerState) :
    process_batch md5 now true target envs tracker =
      Except.ok (process_batch_core md5 now target envs tracker) ∧
    (process_batch_core md5 now target envs tracker).iterations_completed ≤ envs.length ∧
    ((process_batch_core md5 now target envs tracker).success = true ↔
      (process_batch_core md5 now target envs tracker).new_accepted_count +
        (process_batch_core md5 now target envs tracker).existing_accepted_count ≥ target) := by
  refine ⟨rfl, ?_, ?_⟩
  · show (batch_loop md5 now target (get_accepted_images tracker).length envs 0
      { tracker := tracker, accepted_images := [], iteration_results := []
        total_posts_scraped := 0, total_posts_processed := 0 }).iteration_results.length ≤ envs.length
    have := batch_loop_iterations_le md5 now target (get_accepted_images tracker).length envs 0
      { tracker := tracker, accepted_images := [], iteration_results := []
        total_posts_scraped := 0, total_posts_processed := 0 }
    simpa using this
  · simp only [process_batch_core]
    simp [decide_eq_true_iff]

/-- C9 counterexample: a record with no short-code, no post id and no image
URL falls to the timestamp fallback, so two runs with different clock values
derive different identifiers — the derivation is not deterministic for every
fixed upstream record. -/
theorem C9_counterexample :
    generate_image_id (fun s => s) ("20250101_000000") ({} : Post) ≠
      generate_image_id (fun s => s) ("20250101_000001") ({} : Post) := by
  decide

/-- C9 (amended): the identifier follows the priority order short-code,
then post id, then hash of the image URL, then the timestamp fallback; the
derivation is run-independent for every record carrying at least one of the
first three identifiers (the timestamp fallback is not deterministic). -/
theorem C9_generate_id_amended (md5 : String → String) (p : Post) (now now2 : String) :
    (truthyStr p.shortCode = true →
      generate_image_id md5 now p = p.shortCode.getD ("")) ∧
    (truthyStr p.shortCode = false → truthyStr p.postId = true →
      generate_image_id md5 now p = p.postId.getD ("")) ∧
    (truthyStr p.shortCode = false → truthyStr p.postId = false →
      (imageUrlOf p).isEmpty = false →
      generate_image_id md5 now p = md5 (imageUrlOf p)) ∧
    (truthyStr p.shortCode = false → truthyStr p.postId = false →
      (imageUrlOf p).isEmpty = true →
      generate_image_id md5 now p = ("unknown_" ++ now)) ∧
    ((truthyStr p.shortCode = true ∨ truthyStr p.postId = true ∨
        (imageUrlOf p).isEmpty = false) →
      generate_image_id md5 now p = generate_image_id md5 now2 p) := by
  refine ⟨?_, ?_, ?_, ?_, fun h => generate_image_id_time_inv md5 p h now now2⟩ <;>
    intros <;> simp_all [generate_image_id]

/-- C9 witness: a record with an explicit short-code takes the first branch
and derives the same identifier under two different clock values. -/
theorem C9_witness :
    generate_image_id (fun s => s) ("t1") { shortCode := some ("BXyz12") } = ("BXyz12") ∧
    generate_image_id (fun s => s) ("t1") { shortCode := some ("BXyz12") } =
      generate_image_id (fun s => s) ("t2") { shortCode := some ("BXyz12") } := by
  constructor
  · exact (C9_generate_id_amended (fun s => s) { shortCode := some ("BXyz12") } ("t1") ("t2")).1
      (by decide)
  · exact (C9_generate_id_amended (fun s => s) { shortCode := some ("BXyz12") } ("t1") ("t2")).2.2.2.2
      (Or.inl (by decide))

/-- C10: the unprocessed filter deduplicates only against the ledger state
at call time, not within its input list: two posts with the same derived
identifier, neither previously processed, are both returned by one call; the
duplicate is excluded only by a later call made after the first has been
marked processed. -/
theorem C10_unprocessed_no_intralist_dedup (md5 : String → String) (now : String)
    (st : ImageTrackerState) (p q : Post)
    (hid : generate_image_id md5 now p = generate_image_id md5 now q)
    (hp : is_processed md5 now st p = false)
    (hq : is_processed md5 now st q = false) :
    get_unprocessed_posts md5 now st [p, q] = [p, q] ∧
    (∀ (status : String) (an : Option Analysis) (lp : Option String),
      get_unprocessed_posts md5 now (mark_processed md5 now st p status an lp) [q] = []) := by
  constructor
  · simp [get_unprocessed_posts, hp, hq]
  · intro status an lp
    have hproc : is_processed md5 now (mark_processed md5 now st p status an lp) q = true := by
      simp [is_processed, mark_processed, dictHasKey, ← hid, dictGet?_dictSet_self]
    simp [get_unprocessed_posts, hproc]

/-- C10 witness: two concrete posts sharing the short-code that derives
their identifier, on an empty ledger. -/
theorem C10_witness :
    get_unprocessed_posts (fun s => s) ("t1") ⟨[]⟩
        [{ shortCode := some ("AA11") }, { shortCode := some ("AA11"), postId := some ("9") }] =
      [{ shortCode := some ("AA11") }, { shortCode := some ("AA11"), postId := some ("9") }] ∧
    get_unprocessed_posts (fun s => s) ("t1")
        (mark_processed (fun s => s) ("t1") ⟨[]⟩ { shortCode := some ("AA11") }
          ("accepted") none none)
        [{ shortCode := some ("AA11"), postId := some ("9") }] = [] := by
  have h := C10_unprocessed_no_intralist_dedup (fun s => s) ("t1") ⟨[]⟩
    { shortCode := some ("AA11") } { shortCode := some ("AA11"), postId := some ("9") }
    (by decide) (by decide) (by decide)
  exact ⟨h.1, h.2 ("accepted") none none⟩

/-- C3 counterexample: for a record with no short-code, no post id and no
image URL, the derived key embeds the clock, so two `mark_processed` calls at
different times create two ledger entries instead of overwriting one, and
`is_processed` checked later does not see the earlier mark. -/
theorem C3_counterexample :
    (mark_processed (fun s => s) ("t2")
        (mark_processed (fun s => s) ("t1") ⟨[]⟩ ({} : Post) ("accepted") none none)
        ({} : Post) ("accepted") none none).processed_images.length = 2 ∧
    is_processed (fun s => s) ("t2")
        (mark_processed (fun s => s) ("t1") ⟨[]⟩ ({} : Post) ("accepted") none none)
        ({} : Post) = false := by
  decide

/-- C3 (amended): for every item carrying a stable identifier (short-code,
post id, or image URL) and every well-formed ledger, `mark_processed` is a
full overwrite-by-key upsert: after one or two calls (at arbitrary times) the
ledger holds exactly one entry keyed by the id of the item, the entry is the one
from the latest call, `is_processed` answers true, and
`get_unprocessed_posts` on the singleton list answers empty. Items with no
identifier at all fall to the timestamp key and evade this guarantee. -/
theorem C3_mark_processed_amended (md5 : String → String) (st : ImageTrackerState)
    (p : Post) (s1 s2 : String) (a1 a2 : Option Analysis) (l1 l2 : Option String)
    (n1 n2 n3 : String)
    (hid : truthyStr p.shortCode = true ∨ truthyStr p.postId = true ∨
      (imageUrlOf p).isEmpty = false)
    (hnodup : (dictKeys st.processed_images).Nodup) :
    countKey (mark_processed md5 n1 st p s1 a1 l1).processed_images
        (generate_image_id md5 n3 p) = 1 ∧
    countKey (mark_processed md5 n2 (mark_processed md5 n1 st p s1 a1 l1) p s2 a2 l2).processed_images
        (generate_image_id md5 n3 p) = 1 ∧
    dictGet? (mark_processed md5 n2 (mark_processed md5 n1 st p s1 a1 l1) p s2 a2 l2).processed_images
        (generate_image_id md5 n3 p) = some (mkTrackingEntry md5 n2 p s2 a2 l2) ∧
    is_processed md5 n3 (mark_processed md5 n1 st p s1 a1 l1) p = true ∧
    get_unprocessed_posts md5 n3 (mark_processed md5 n1 st p s1 a1 l1) [p] = [] := by
  have e31 : generate_image_id md5 n3 p = generate_image_id md5 n1 p :=
    generate_image_id_time_inv md5 p hid n3 n1
  have e32 : generate_image_id md5 n3 p = generate_image_id md5 n2 p :=
    generate_image_id_time_inv md5 p hid n3 n2
  have h1 : countKey (mark_processed md5 n1 st p s1 a1 l1).processed_images
      (generate_image_id md5 n3 p) = 1 := by
    rw [e31]
    exact countKey_dictSet _ _ _
      (countKey_le_one_of_nodup _ hnodup _)
  have hnodup1 : (dictKeys (mark_processed md5 n1 st p s1 a1 l1).processed_images).Nodup :=
    nodup_dictKeys_dictSet _ _ _ hnodup
  have h2 : countKey (mark_processed md5 n2 (mark_processed md5 n1 st p s1 a1 l1) p s2 a2 l2).processed_images
      (generate_image_id md5 n3 p) = 1 := by
    rw [e32]
    exact countKey_dictSet _ _ _
      (countKey_le_one_of_nodup _ hnodup1 _)
  have hproc : is_processed md5 n3 (mark_processed md5 n1 st p s1 a1 l1) p = true := by
    simp [is_processed, mark_processed, dictHasKey, e31, dictGet?_dictSet_self]
  refine ⟨h1, h2, ?_, hproc, ?_⟩
  · rw [e32]
    exact dictGet?_dictSet_self _ _ _
  · simp [get_unprocessed_posts, hproc]

/-- C3 witness: a concrete post with a short-code, marked twice on an empty
ledger; the ledger ends with exactly one entry, the second one, and the item
is filtered as processed. -/
theorem C3_witness :
    countKey (mark_processed (fun s => s) ("t1") ⟨[]⟩ { shortCode := some ("AA11") }
        ("rejected") none none).processed_images ("AA11") = 1 ∧
    countKey (mark_processed (fun s => s) ("t2")
        (mark_processed (fun s => s) ("t1") ⟨[]⟩ { shortCode := some ("AA11") }
          ("rejected") none none)
        { shortCode := some ("AA11") } ("accepted") none none).processed_images ("AA11") = 1 ∧
    dictGet? (mark_processed (fun s => s) ("t2")
        (mark_processed (fun s => s) ("t1") ⟨[]⟩ { shortCode := some ("AA11") }
          ("rejected") none none)
        { shortCode := some ("AA11") } ("accepted") none none).processed_images ("AA11") =
      some (mkTrackingEntry (fun s => s) ("t2") { shortCode := some ("AA11") }
        ("accepted") none none) ∧
    is_processed (fun s => s) ("t3")
        (mark_processed (fun s => s) ("t1") ⟨[]⟩ { shortCode := some ("AA11") }
          ("rejected") none none) { shortCode := some ("AA11") } = true ∧
    get_unprocessed_posts (fun s => s) ("t3")
        (mark_processed (fun s => s) ("t1") ⟨[]⟩ { shortCode := some ("AA11") }
          ("rejected") none none) [{ shortCode := some ("AA11") }] = [] := by
  have h := C3_mark_processed_amended (fun s => s) ⟨[]⟩ { shortCode := some ("AA11") }
    ("rejected") ("accepted") none none none none ("t1") ("t2") ("t3")
    (Or.inl (by decide)) (by simp [dictKeys])
  simpa [generate_image_id, truthyStr] using h

/-- An analysis rejected by the quality check (quality 0.1 < 0.5) whose
overall score is also under threshold; wanted categories are satisfied. -/
def c2_analysis : Analysis :=
  { is_video_thumbnail := false
    video_confidence := 0
    google_vision_labels := []
    google_vision_objects := []
    category_matches := [(("landscape"), { score := 1, match_entries := [], match_count := 0 })]
    quality_score := 1/10
    print_suitability := 0
    overall_score := 1/10 }

/-- C2 counterexample: this analysis fails the quality check first in the
claimed order (video, quality, category, overall), yet the machine-readable
rejection reason computed by `_download_and_analyze_image` is the overall
score reason — the reason derivation checks overall before quality, so the
first failing check of the claimed order does not determine it. -/
theorem C2_counterexample :
    meets_content_criteria c2_analysis [("landscape")] (1/2) (1/2) (3/5) = false ∧
    claimed_rejection_reason c2_analysis [("landscape")] (1/2) (1/2) (3/5) =
      some RejectionReason.qualityScore ∧
    rejection_reason c2_analysis (1/2) (3/5) = RejectionReason.overallScore ∧
    RejectionReason.overallScore ≠ RejectionReason.qualityScore := by
  refine ⟨?_, ?_, ?_, by decide⟩
  · simp [meets_content_criteria, c2_analysis]
    norm_num
  · simp [claimed_rejection_reason, c2_analysis]
    norm_num
  · simp [rejection_reason, c2_analysis]
    norm_num

/-- C2 (amended): the boolean accept/reject decision evaluates its checks in
the order video thumbnail, quality, wanted category, overall — but the
machine-readable rejection reason is derived by a separate chain whose
precedence is video thumbnail, then overall, then quality, then the category
fallback. A video thumbnail is always rejected with the video reason
regardless of scores; a rejected non-video analysis gets the overall-score
reason whenever overall is under threshold (even if quality failed first),
the quality reason when only quality is under threshold, and the category
fallback exactly when the wanted-category check is the failing one. -/
theorem C2_rejection_amended (a : Analysis) (cats : List String) (minQ minC minO : ℚ) :
    (a.is_video_thumbnail = true →
      meets_content_criteria a cats minQ minC minO = false ∧
      rejection_reason a minQ minO = RejectionReason.videoThumbnail) ∧
    (meets_content_criteria a cats minQ minC minO = false → a.is_video_thumbnail = false →
      (a.overall_score < minO →
        rejection_reason a minQ minO = RejectionReason.overallScore) ∧
      (¬ a.overall_score < minO → a.quality_score < minQ →
        rejection_reason a minQ minO = RejectionReason.qualityScore) ∧
      (¬ a.overall_score < minO → ¬ a.quality_score < minQ →
        rejection_reason a minQ minO = RejectionReason.categoryCriteria ∧
        cats ≠ [] ∧ best_wanted_score a.category_matches cats < minC)) := by
  constructor
  · intro hv
    exact ⟨by simp [meets_content_criteria, hv], by simp [rejection_reason, hv]⟩
  · intro hrej hv
    refine ⟨fun ho => by simp [rejection_reason, hv, ho], ?_, ?_⟩
    · intro ho hq
      simp [rejection_reason, hv, ho, hq]
    · intro ho hq
      refine ⟨by simp [rejection_reason, hv, ho, hq], ?_⟩
      by_contra hcat
      rw [not_and_or] at hcat
      have : meets_content_criteria a cats minQ minC minO = true := by
        unfold meets_content_criteria
        rw [if_neg (by simp [hv]), if_neg hq, if_neg ?_, if_neg ho]
        push_neg at hcat
        rcases hcat with h | h
        · simp [h]
        · simp only [not_and]
          intro
          exact not_lt.mpr h
      rw [this] at hrej
      cases hrej

/-- C2 witness: a video-thumbnail analysis with perfect scores is rejected
with the video reason; a concrete rejected non-video analysis with both
quality and overall under threshold receives the overall reason. -/
theorem C2_witness :
    meets_content_criteria
        { is_video_thumbnail := true, quality_score := 1, overall_score := 1 }
        [("landscape")] (1/2) (1/2) (3/5) = false ∧
    rejection_reason
        { is_video_thumbnail := true, quality_score := 1, overall_score := 1 }
        (1/2) (3/5) = RejectionReason.videoThumbnail := by
  exact (C2_rejection_amended
    { is_video_thumbnail := true, quality_score := 1, overall_score := 1 }
    [("landscape")] (1/2) (1/2) (3/5)).1 rfl

/-- A category-match table with one strong match (score 10, non-negative),
as produced for example by many accumulated keyword hits. -/
def c4_matches : List (String × CategoryMatch) :=
  [(("landscape"), { score := 10, match_entries := [], match_count := 0 })]

/-- C4 counterexample: a 3600x2400 image with a category score of 10 has all
sub-scores finite and non-negative (quality 1, print suitability 3.7,
category scores 10 ≥ 0), yet the computed overall score is 2.08 > 1 — the
overall score is not clamped to [0,1]; the unclamped category term of print
suitability pushes it past 1. -/
theorem C4_counterexample :
    assess_image_quality (some (3600, 2400)) = 1 ∧
    assess_print_suitability (some (3600, 2400)) c4_matches = 37/10 ∧
    (0 : ℚ) ≤ 37/10 ∧
    calculate_overall_score
      { is_video_thumbnail := false
        category_matches := c4_matches
        quality_score := assess_image_quality (some (3600, 2400))
        print_suitability := assess_print_suitability (some (3600, 2400)) c4_matches } =
      52/25 ∧
    ¬ ((52 : ℚ)/25 ≤ 1) := by
  refine ⟨by norm_num [assess_image_quality, min_def],
    by norm_num [assess_print_suitability, min_def, max_def, content_suitability,
      List.foldl, c4_matches],
    by norm_num,
    by norm_num [calculate_overall_score, assess_image_quality, assess_print_suitability,
      min_def, max_def, content_suitability, best_category_score, List.foldl, c4_matches],
    by norm_num⟩

/-- C4 (amended): the overall score lies in [0,1] whenever the quality score
and print-suitability inputs lie in [0,1] (category-match scores may be
arbitrary: their contribution is clamped by the min(1, best/2) term and the
best-score fold is never negative). When print suitability exceeds 1 — which
the unclamped category term of `_assess_print_suitability` allows — the
overall score can exceed 1. -/
theorem C4_overall_bounded_amended (a : Analysis)
    (hq0 : 0 ≤ a.quality_score) (hq1 : a.quality_score ≤ 1)
    (hp0 : 0 ≤ a.print_suitability) (hp1 : a.print_suitability ≤ 1) :
    0 ≤ calculate_overall_score a ∧ calculate_overall_score a ≤ 1 := by
  unfold calculate_overall_score
  by_cases hv : a.is_video_thumbnail
  · simp [hv]
  · simp only [hv, if_false, Bool.false_eq_true]
    have hb0 : (0 : ℚ) ≤ best_category_score a.category_matches :=
      best_category_score_nonneg a.category_matches
    have hm1 : min 1 (best_category_score a.category_matches / 2) ≤ 1 := min_le_left _ _
    have hm0 : (0 : ℚ) ≤ min 1 (best_category_score a.category_matches / 2) :=
      le_min (by norm_num) (by linarith)
    constructor <;> nlinarith

/-- C4 witness: a concrete analysis with quality 0.5 and print suitability
0.5 keeps the overall score inside [0,1]. -/
theorem C4_witness :
    0 ≤ calculate_overall_score
        { is_video_thumbnail := false, quality_score := 1/2, print_suitability := 1/2 } ∧
    calculate_overall_score
        { is_video_thumbnail := false, quality_score := 1/2, print_suitability := 1/2 } ≤ 1 :=
  C4_overall_bounded_amended
    { is_video_thumbnail := false, quality_score := 1/2, print_suitability := 1/2 }
    (by norm_num) (by norm_num) (by norm_num) (by norm_num)

/-- C5: for a non-video image the overall score equals
quality x 0.3 + print suitability x 0.4 + min(1, best category score / 2) x 0.3,
where the best category score bounds the final score of every taxonomy category;
for an image flagged as a video thumbnail the analysis short-circuits with
overall score 0 and the classifier results, category matching, quality and
print-suitability scoring all keep their initial zero/empty defaults. -/
theorem C5_analyze_fusion (video : VideoDetectionResult) (vision : Option VisionResults)
    (dims : Option (ℕ × ℕ)) :
    (video.is_likely_video = true →
      (analyze_image_content video vision dims).overall_score = 0 ∧
      (analyze_image_content video vision dims).quality_score = 0 ∧
      (analyze_image_content video vision dims).print_suitability = 0 ∧
      (analyze_image_content video vision dims).category_matches = [] ∧
      (analyze_image_content video vision dims).google_vision_labels = [] ∧
      (analyze_image_content video vision dims).google_vision_objects = []) ∧
    (video.is_likely_video = false →
      (analyze_image_content video vision dims).overall_score =
        (analyze_image_content video vision dims).quality_score * (3/10) +
        (analyze_image_content video vision dims).print_suitability * (4/10) +
        min 1 (best_category_score (analyze_image_content video vision dims).category_matches / 2) *
          (3/10) ∧
      ∀ c ∈ (analyze_image_content video vision dims).category_matches,
        c.2.score ≤ best_category_score (analyze_image_content video vision dims).category_matches) := by
  constructor
  · intro hv
    simp [analyze_image_content, hv]
  · intro hv
    constructor
    · simp [analyze_image_content, hv, calculate_overall_score]
    · intro c hc
      exact score_le_best_category_score _ c hc

/-- C5 witness: a concrete video-flagged detector result short-circuits the
analysis to all-zero scores. -/
theorem C5_witness :
    (analyze_image_content
        { is_likely_video := true, confidence_score := 1
          indicators :=
            { filename_info := { has_video_suffix := false, has_video_keywords := false
                                 suspicious_patterns := [] }
              play_button_detected := false, play_button_confidence := 0
              ui_progress_bar := false
              aspect := { ratio_value := 0, is_video_ratio := false, ratio_type := ("unknown") } } }
        none none).overall_score = 0 ∧
    (analyze_image_content
        { is_likely_video := true, confidence_score := 1
          indicators :=
            { filename_info := { has_video_suffix := false, has_video_keywords := false
                                 suspicious_patterns := [] }
              play_button_detected := false, play_button_confidence := 0
              ui_progress_bar := false
              aspect := { ratio_value := 0, is_video_ratio := false, ratio_type := ("unknown") } } }
        none none).quality_score = 0 := by
  have h := (C5_analyze_fusion
    { is_likely_video := true, confidence_score := 1
      indicators :=
        { filename_info := { has_video_suffix := false, has_video_keywords := false
                             suspicious_patterns := [] }
          play_button_detected := false, play_button_confidence := 0
          ui_progress_bar := false
          aspect := { ratio_value := 0, is_video_ratio := false, ratio_type := ("unknown") } } }
    none none).1 rfl
  exact ⟨h.1, h.2.1⟩

/-- The category-match table of the C6 counterexample: best score 0.4,
strictly between 0 and the 0.5 gate. -/
def c6_matches : List (String × CategoryMatch) :=
  [(("landscape"), { score := 2/5, match_entries := [], match_count := 0 })]

/-- C6 counterexample: with a best category score of 0.4 the source gives a
print suitability of 0.7 (the content term contributes 0 because 0.4 does
not exceed the 0.5 gate), while the claimed formula — best category score
folded in unconditionally at weight 0.3 — gives 0.82. -/
theorem C6_counterexample :
    assess_print_suitability (some (3600, 2400)) c6_matches = 7/10 ∧
    claimed_print_suitability (some (3600, 2400)) c6_matches = 41/50 ∧
    (7 : ℚ)/10 ≠ 41/50 := by
  refine ⟨by norm_num [assess_print_suitability, min_def, max_def, content_suitability,
      List.foldl, c6_matches],
    by norm_num [claimed_print_suitability, min_def, max_def, best_category_score,
      List.foldl, c6_matches],
    by norm_num⟩

/-- C6 (amended): print suitability equals
min(1, max printable size at 150 DPI / 24) x 0.4 + aspect-tier x 0.3 +
(best category score if it exceeds 0.5, else 0) x 0.3 — the content term is
gated at the strict 0.5 threshold rather than being the raw best score. -/
theorem C6_print_suitability_amended (w h : ℕ) (cm : List (String × CategoryMatch)) :
    assess_print_suitability (some (w, h)) cm =
      min 1 (max ((w : ℚ) / 150) ((h : ℚ) / 150) / 24) * (4/10) +
      (if 7/10 ≤ (w : ℚ) / (h : ℚ) ∧ (w : ℚ) / (h : ℚ) ≤ 3/2 then 1
       else if 1/2 ≤ (w : ℚ) / (h : ℚ) ∧ (w : ℚ) / (h : ℚ) ≤ 2 then (8 : ℚ)/10 else 1/2) * (3/10) +
      (if best_category_score cm > 1/2 then best_category_score cm else 0) * (3/10) := by
  simp only [assess_print_suitability, content_suitability_eq]

/-- The confidence fusion written as one weighted sum: the play-button term
is gated by the detection flag. -/
theorem calculate_overall_confidence_eq_sum (ind : VideoIndicators) :
    calculate_overall_confidence ind =
      min 1 ((if ind.play_button_detected then ind.play_button_confidence * (6/10) else 0)
        + (if ind.filename_info.has_video_suffix then 3/10 else 0)
        + (if ind.filename_info.has_video_keywords then 2/10 else 0)
        + (if ind.ui_progress_bar then 1/4 else 0)
        + (if ind.aspect.is_video_ratio ∧ ind.aspect.ratio_type = ("9:16") then 3/20 else 0)) := by
  simp only [calculate_overall_confidence]
  rw [min_comm]
  congr 1
  split_ifs <;> ring

/-- The filename heuristics find nothing in the name photo.jpg. -/
theorem c7_filename_eval : check_filename_indicators (lowerStr ("photo.jpg")) =
    { has_video_suffix := false, has_video_keywords := false, suspicious_patterns := [] } := by
  set_option maxHeartbeats 2000000 in decide

/-- A 300 x 300 image is classified into the 1:1 ratio bucket. -/
theorem c7_bucket_eval : classifyBucket video_ratio_buckets ((300 : ℚ)/300) = some ("1:1") := by
  have hr : ((300 : ℚ))/300 = 1 := by norm_num
  rw [hr]
  simp only [video_ratio_buckets, classifyBucket]
  norm_num [abs_le]

/-- The aspect record of a 300 x 300 image: the 1:1 bucket, not 9:16. -/
theorem c7_aspect_eval : check_aspect_info (some (300, 300)) =
    { ratio_value := (300 : ℚ)/300, is_video_ratio := true, ratio_type := ("1:1") } := by
  show (match classifyBucket video_ratio_buckets ((300 : ℚ)/(300 : ℚ)) with
    | some nm =>
      { ratio_value := ((300 : ℚ)/(300 : ℚ)), is_video_ratio := true, ratio_type := nm }
    | none =>
      { ratio_value := ((300 : ℚ)/(300 : ℚ)), is_video_ratio := false
        ratio_type := ("unknown") } : AspectInfo) = _
  rw [c7_bucket_eval]

/-- A play-button best match of 0.5 stays under the 0.6 detection
threshold. -/
theorem c7_play_eval :
    detect_play_button ⟨true, 1/2, false, some (300, 300)⟩ (6/10) = (false, 1/2) := by
  simp only [detect_play_button]
  norm_num

/-- C7 counterexample: a decodable 300 x 300 image named photo.jpg with a
best play-button template match of 0.5 (below the 0.6 detection threshold)
and no other indicators gets confidence 0.0 from the source — the
play-button term is added only when the detection threshold is met — while
the claimed unconditional weighted sum gives 0.3. -/
theorem C7_counterexample :
    (detect_video_indicators ("photo.jpg") ⟨true, 1/2, false, some (300, 300)⟩).confidence_score
      = 0 ∧
    claimed_confidence
      (detect_video_indicators ("photo.jpg") ⟨true, 1/2, false, some (300, 300)⟩).indicators
      = 3/10 ∧
    (0 : ℚ) ≠ 3/10 := by
  have hind : (detect_video_indicators ("photo.jpg") ⟨true, 1/2, false, some (300, 300)⟩).indicators
      = { filename_info := { has_video_suffix := false, has_video_keywords := false
                             suspicious_patterns := [] }
          play_button_detected := false
          play_button_confidence := 1/2
          ui_progress_bar := false
          aspect := { ratio_value := (300 : ℚ)/300, is_video_ratio := true
                      ratio_type := ("1:1") } } := by
    simp only [detect_video_indicators, c7_filename_eval, c7_aspect_eval, c7_play_eval,
      detect_video_ui_elements, Bool.not_true, Bool.false_eq_true, if_false]
  have hconf : (detect_video_indicators ("photo.jpg") ⟨true, 1/2, false, some (300, 300)⟩).confidence_score
      = calculate_overall_confidence
        (detect_video_indicators ("photo.jpg") ⟨true, 1/2, false, some (300, 300)⟩).indicators := rfl
  have hne : (("1:1" : String) = ("9:16")) = False := by
    simp only [eq_iff_iff, iff_false]
    decide
  refine ⟨?_, ?_, by norm_num⟩
  · rw [hconf, hind]
    simp only [calculate_overall_confidence, hne]
    norm_num [min_def]
  · rw [hind]
    simp only [claimed_confidence, hne]
    norm_num [min_def]

/-- C7 (amended): the detector confidence equals the weighted sum of the
sub-signals capped at 1.0, except that the 0.6-weighted play-button term
participates only when the play-button detector fired (best template match
at least the 0.6 threshold on a decodable image); `is_likely_video` holds
exactly when the confidence exceeds 0.5 strictly. -/
theorem C7_confidence_amended (basename : String) (env : DetectorEnv) :
    (detect_video_indicators basename env).confidence_score =
      min 1 ((if (detect_video_indicators basename env).indicators.play_button_detected then
          (detect_video_indicators basename env).indicators.play_button_confidence * (6/10) else 0)
        + (if (detect_video_indicators basename env).indicators.filename_info.has_video_suffix then
            (3 : ℚ)/10 else 0)
        + (if (detect_video_indicators basename env).indicators.filename_info.has_video_keywords then
            (2 : ℚ)/10 else 0)
        + (if (detect_video_indicators basename env).indicators.ui_progress_bar then (1 : ℚ)/4 else 0)
        + (if (detect_video_indicators basename env).indicators.aspect.is_video_ratio ∧
              (detect_video_indicators basename env).indicators.aspect.ratio_type = ("9:16") then
            (3 : ℚ)/20 else 0)) ∧
    ((detect_video_indicators basename env).is_likely_video = true ↔
      (detect_video_indicators basename env).confidence_score > 1/2) ∧
    ((detect_video_indicators basename env).indicators.play_button_detected = true ↔
      env.cv_decoded = true ∧ env.play_best_match ≥ 6/10) := by
  refine ⟨calculate_overall_confidence_eq_sum _, ?_, ?_⟩
  · have hr : (detect_video_indicators basename env).is_likely_video =
        decide ((detect_video_indicators basename env).confidence_score > 1/2) := rfl
    rw [hr, decide_eq_true_iff]
  · show (detect_play_button env (6/10)).1 = true ↔ _
    cases hcv : env.cv_decoded <;> simp [detect_play_button, hcv, decide_eq_true_iff]

/-- The filename heuristics on the name video_reel.jpg: the suffix token
_reel and the keywords video and reel match. -/
theorem c8_filename_eval : check_filename_indicators (lowerStr ("video_reel.jpg")) =
    { has_video_suffix := true, has_video_keywords := true
      suspicious_patterns := ["_reel", "video", "reel"] } := by
  set_option maxHeartbeats 2000000 in decide

/-- C8 counterexample: an undecodable byte sequence stored under the name
video_reel.jpg yields is_likely_video false but confidence 0.5 (the filename
heuristics do not require decoding), not the claimed 0.0. -/
theorem C8_counterexample :
    (detect_video_indicators ("video_reel.jpg") ⟨false, 0, false, none⟩).is_likely_video = false ∧
    (detect_video_indicators ("video_reel.jpg") ⟨false, 0, false, none⟩).confidence_score = 1/2 ∧
    (1 : ℚ)/2 ≠ 0 := by
  have hind : (detect_video_indicators ("video_reel.jpg") ⟨false, 0, false, none⟩).indicators
      = { filename_info := { has_video_suffix := true, has_video_keywords := true
                             suspicious_patterns := ["_reel", "video", "reel"] }
          play_button_detected := false
          play_button_confidence := 0
          ui_progress_bar := false
          aspect := { ratio_value := 0, is_video_ratio := false, ratio_type := ("unknown") } } := by
    simp only [detect_video_indicators, c8_filename_eval]
    rfl
  have hconf : (detect_video_indicators ("video_reel.jpg") ⟨false, 0, false, none⟩).confidence_score
      = 1/2 := by
    have h0 : (detect_video_indicators ("video_reel.jpg") ⟨false, 0, false, none⟩).confidence_score
        = calculate_overall_confidence
          (detect_video_indicators ("video_reel.jpg") ⟨false, 0, false, none⟩).indicators := rfl
    rw [h0, hind]
    simp only [calculate_overall_confidence]
    norm_num [min_def]
  have hr : (detect_video_indicators ("video_reel.jpg") ⟨false, 0, false, none⟩).is_likely_video =
      decide ((detect_video_indicators ("video_reel.jpg") ⟨false, 0, false, none⟩).confidence_score
        > 1/2) := rfl
  refine ⟨?_, hconf, by norm_num⟩
  · rw [hr, decide_eq_false_iff_not, hconf]
    norm_num

/-- C8 (amended): for every undecodable input (both decoders fail) the
detector never raises (the embedding is a total function over the failure
environment), returns is_likely_video false, and reports as confidence
exactly the filename-heuristic contribution — 0.0 when the lowercased
basename contains no video suffix and no video keyword, and at most 0.5
otherwise. -/
theorem C8_failsafe_amended (basename : String) (env : DetectorEnv)
    (hcv : env.cv_decoded = false) (hpil : env.pil_dims = none) :
    (detect_video_indicators basename env).is_likely_video = false ∧
    (detect_video_indicators basename env).confidence_score =
      (if (check_filename_indicators (lowerStr basename)).has_video_suffix then (3 : ℚ)/10 else 0)
        + (if (check_filename_indicators (lowerStr basename)).has_video_keywords then
            (2 : ℚ)/10 else 0) ∧
    (detect_video_indicators basename env).confidence_score ≤ 1/2 ∧
    ((check_filename_indicators (lowerStr basename)).has_video_suffix = false →
      (check_filename_indicators (lowerStr basename)).has_video_keywords = false →
      (detect_video_indicators basename env).confidence_score = 0) := by
  have hpb : detect_play_button env (6/10) = (false, 0) := by
    simp [detect_play_button, hcv]
  have hui : detect_video_ui_elements env = false := by
    simp [detect_video_ui_elements, hcv]
  have har : check_aspect_info env.pil_dims =
      { ratio_value := 0, is_video_ratio := false, ratio_type := ("unknown") } := by
    rw [hpil]
    rfl
  have hind : (detect_video_indicators basename env).indicators =
      { filename_info := check_filename_indicators (lowerStr basename)
        play_button_detected := (detect_play_button env (6/10)).1
        play_button_confidence := (detect_play_button env (6/10)).2
        ui_progress_bar := detect_video_ui_elements env
        aspect := check_aspect_info env.pil_dims } := rfl
  rw [hpb, hui, har] at hind
  have hconf : (detect_video_indicators basename env).confidence_score =
      (if (check_filename_indicators (lowerStr basename)).has_video_suffix then (3 : ℚ)/10 else 0)
        + (if (check_filename_indicators (lowerStr basename)).has_video_keywords then
            (2 : ℚ)/10 else 0) := by
    have h0 : (detect_video_indicators basename env).confidence_score =
        calculate_overall_confidence (detect_video_indicators basename env).indicators := rfl
    rw [h0, hind]
    simp only [calculate_overall_confidence]
    by_cases h1 : (check_filename_indicators (lowerStr basename)).has_video_suffix <;>
      by_cases h2 : (check_filename_indicators (lowerStr basename)).has_video_keywords <;>
        simp [h1, h2, min_def] <;> norm_num
  have hle : (detect_video_indicators basename env).confidence_score ≤ 1/2 := by
    rw [hconf]
    by_cases h1 : (check_filename_indicators (lowerStr basename)).has_video_suffix <;>
      by_cases h2 : (check_filename_indicators (lowerStr basename)).has_video_keywords <;>
        simp [h1, h2] <;> norm_num
  refine ⟨?_, hconf, hle, ?_⟩
  · have hr : (detect_video_indicators basename env).is_likely_video =
        decide ((detect_video_indicators basename env).confidence_score > 1/2) := rfl
    rw [hr, decide_eq_false_iff_not]
    exact not_lt.mpr hle
  · intro h1 h2
    rw [hconf, h1, h2]
    norm_num

/-- C8 witness: a concrete undecodable input named corrupt.bin has no
filename indicators and gets confidence exactly 0.0. -/
theorem C8_witness :
    (detect_video_indicators ("corrupt.bin") ⟨false, 0, false, none⟩).is_likely_video = false ∧
    (detect_video_indicators ("corrupt.bin") ⟨false, 0, false, none⟩).confidence_score = 0 := by
  have h := C8_failsafe_amended ("corrupt.bin") ⟨false, 0, false, none⟩ rfl rfl
  refine ⟨h.1, h.2.2.2 ?_ ?_⟩ <;>
    set_option maxHeartbeats 2000000 in decide

end AutoEtsy
